import Mathlib

/-!
Shallow embedding of `split_mp4_ffmpeg.py` (mcdnew/mp4-splitter).

The script has three relevant functions:
  - `ffprobe_duration` (lines 77-87): runs ffprobe, strips its stdout and
    parses it with Python `float`;
  - `ensure_video_path` (lines 112-121): validates an input path (directory
    branch delegates to an interactive picker, modelled as an oracle);
  - `split_video_stream_copy` (lines 123-168): validates the chunk count and
    the file, probes the duration, plans the segment command and runs ffmpeg.

External effects (child processes, mkdir, the final status print) are modelled
as an explicit trace; the outside world (whether the engines are on PATH, the
probe stdout, the child exit codes, whether the file exists) is an explicit
environment record. Python floats are idealised as exact rationals; the
`%.6f` formatting of the segment time is modelled as rounding to the nearest
multiple of 10^-6 (Python rounds the underlying binary double half-to-even;
the tie-breaking rule is irrelevant to every statement below).
-/

/-- Drops leading whitespace characters. -/
def dropWs : List Char → List Char
  | [] => []
  | c :: cs => if c.isWhitespace then dropWs cs else c :: cs

/-- Models Python `str.strip()`: removes leading and trailing whitespace. -/
def pyStrip (cs : List Char) : List Char :=
  (dropWs (dropWs cs).reverse).reverse

/-- Reads a maximal run of decimal digits: returns the accumulated value, the
number of digits read, and the remaining characters. -/
def readDigits : List Char → Nat → Nat → Nat × Nat × List Char
  | [], acc, k => (acc, k, [])
  | c :: cs, acc, k =>
      if c.isDigit then readDigits cs (10 * acc + (c.toNat - 48)) (k + 1)
      else (acc, k, c :: cs)

/-- Reads an optional leading sign; returns whether it was a minus. -/
def parseSign : List Char → Bool × List Char
  | '-' :: cs => (true, cs)
  | '+' :: cs => (false, cs)
  | cs => (false, cs)

/-- Reads an unsigned decimal mantissa `digits[.digits]` (at least one digit
overall): returns the mantissa digits as an integer, the number of fractional
digits, and the remaining characters. -/
def parseMantissa (cs : List Char) : Option (Nat × Nat × List Char) :=
  match readDigits cs 0 0 with
  | (ip, ik, rest) =>
    match rest with
    | '.' :: rest2 =>
        match readDigits rest2 ip 0 with
        | (m, fk, rest3) =>
            if ik + fk = 0 then none else some (m, fk, rest3)
    | _ => if ik = 0 then none else some (ip, 0, rest)

/-- The syntactic pieces of a parsed floating-point literal: sign, mantissa
digits, count of fractional digits, exponent sign and exponent digits. -/
structure FloatLit where
  neg : Bool
  mant : Nat
  fracDigits : Nat
  expNeg : Bool
  exp : Nat
deriving DecidableEq

/-- The exact rational a parsed literal denotes. -/
def FloatLit.val (f : FloatLit) : ℚ :=
  let m : ℚ := (f.mant : ℚ) / (10 : ℚ) ^ f.fracDigits
  let s : ℚ := if f.expNeg then m / (10 : ℚ) ^ f.exp else m * (10 : ℚ) ^ f.exp
  if f.neg then -s else s

/-- Parses the decimal / scientific notation Python `float` accepts here:
optional surrounding whitespace, optional sign, decimal mantissa, optional
`e`/`E` exponent, nothing after. -/
def pyFloatLit (s : String) : Option FloatLit :=
  match parseSign (pyStrip s.data) with
  | (neg, cs) =>
    match parseMantissa cs with
    | none => none
    | some (m, fk, rest) =>
      match rest with
      | [] => some ⟨neg, m, fk, false, 0⟩
      | e :: rest2 =>
        if e = 'e' ∨ e = 'E' then
          match parseSign rest2 with
          | (eneg, rest3) =>
            match readDigits rest3 0 0 with
            | (ev, ek, rest4) =>
              if ek = 0 then none
              else if rest4 = [] then some ⟨neg, m, fk, eneg, ev⟩
              else none
        else none

/-- Models Python `float(s)` on the notation the probe engine can emit.
`none` models the `ValueError` raised when the string does not parse
("inf"/"nan" spellings are out of the model: the probe engine never emits
them). The value is kept exact in ℚ. -/
def pyFloat (s : String) : Option ℚ :=
  (pyFloatLit s).map FloatLit.val

/-- Model of a `pathlib.Path` to a file, split into the components the script
reads: parent directory (`path.parent`), `path.stem` and `path.suffix` (the
suffix carries its leading dot, e.g. `".mp4"`). -/
structure PyPath where
  dir : String
  stem : String
  suffix : String
deriving DecidableEq

/-- Models `path.name`. -/
def PyPath.name (p : PyPath) : String := p.stem ++ p.suffix

/-- Models `str(path)`. -/
def PyPath.str (p : PyPath) : String := p.dir ++ "/" ++ p.name

/-- The Python exceptions the modelled code can raise. -/
inductive PyExc where
  | valueError : String → PyExc
  | fileNotFoundError : String → PyExc
  | calledProcessError : Int → PyExc
deriving DecidableEq

/-- Outcome of a call: an exception propagated to the caller, or a normal
return of `None` (the script's split function has no return statement). -/
inductive SplitResult where
  | raised : PyExc → SplitResult
  | returnedNone : SplitResult
deriving DecidableEq

/-- Externally observable side effects, in program order. -/
inductive Event where
  | probeCall : Event
  | spawn : List String → Event
  | mkdirAll : String → Event
  | waitChild : Event
deriving DecidableEq

/-- Whether an event is the creation of an external child process. -/
def Event.isSpawn : Event → Bool
  | Event.spawn _ => true
  | _ => false

/-- Environment of one ffprobe run: whether the executable resolves on PATH,
its exit code once run, and its captured standard output. -/
structure ProbeEnv where
  onPath : Bool
  exitCode : Int
  stdout : String
deriving DecidableEq

/-- The argv built for ffprobe (lines 79-85 of the source). -/
def probe_cmd (path : String) : List String :=
  ["ffprobe", "-v", "error", "-show_entries", "format=duration",
   "-of", "default=noprint_wrappers=1:nokey=1", path]

/-- Models `ffprobe_duration` (lines 77-87): `subprocess.check_output` raises
`FileNotFoundError` when the engine is not on PATH and `CalledProcessError`
on a non-zero exit; otherwise stdout is stripped and fed to `float`, whose
failure is a `ValueError`. -/
def ffprobe_duration (env : ProbeEnv) (path : String) : Except PyExc ℚ :=
  if !env.onPath then Except.error (PyExc.fileNotFoundError "ffprobe")
  else if env.exitCode ≠ 0 then Except.error (PyExc.calledProcessError env.exitCode)
  else
    match pyFloat (String.mk (pyStrip env.stdout.data)) with
    | some v => Except.ok v
    | none =>
        Except.error
          (PyExc.valueError ("could not convert string to float: " ++
            String.mk (pyStrip env.stdout.data)))

/-- Side effects of one `ffprobe_duration` call: the call itself, and one
child process when (and only when) the executable resolves. -/
def ffprobe_events (env : ProbeEnv) (path : String) : List Event :=
  Event.probeCall :: (if env.onPath then [Event.spawn (probe_cmd path)] else [])

/-- Models Python `str.lower()` on the ASCII strings in play: lowercases each
character. -/
def pyLower (s : String) : String := String.mk (s.data.map Char.toLower)

/-- Models `ensure_video_path` (lines 112-121). The directory branch hands
control to the interactive picker `pick_mp4_from_dir`, modelled here as the
oracle argument `pick`; the file branch is modelled exactly. -/
def ensure_video_path (isDir : Bool) (pick : Except PyExc PyPath)
    (pathExists : Bool) (p : PyPath) : Except PyExc PyPath :=
  if isDir then pick
  else if !pathExists then
    Except.error (PyExc.fileNotFoundError ("Input path does not exist: " ++ p.str))
  else if pyLower p.suffix ≠ ".mp4" then
    Except.error (PyExc.valueError ("Input file must be an .mp4: " ++ p.str))
  else Except.ok p

/-- Models `max(2, int(math.ceil(math.log10(num_chunks + 1))))` (line 137)
with the exact logarithm: for m ≥ 1, `Nat.clog 10 m` is `⌈log10 m⌉`. -/
def namingDigits (n : Nat) : Nat := max 2 (Nat.clog 10 (n + 1))

/-- Pads a string to width `w` with leading zeros (no truncation), as the
C-style `%0wd` conversion does for non-negative integers. -/
def padLeftZeros (w : Nat) (s : String) : String :=
  String.mk (List.replicate (w - s.length) '0') ++ s

/-- The filename ffmpeg produces from the template for segment index `i`:
the `%0wd` placeholder rendered at width `w`. -/
def chunkName (base : String) (w : Nat) (i : Nat) : String :=
  base ++ "_part" ++ padLeftZeros w (toString i) ++ ".mp4"

/-- The exact rational denoted by the `%.6f` rendering of `q`: `q` rounded to
the nearest multiple of 10^-6. -/
def round6 (q : ℚ) : ℚ := (round (q * 1000000) : ℚ) / 1000000

/-- Renders `n` millionths as a decimal numeral with exactly six fractional
digits. -/
def fmt6Int (n : ℤ) : String :=
  let sign := if n < 0 then "-" else ""
  let m : ℕ := n.natAbs
  sign ++ toString (m / 1000000) ++ "." ++ padLeftZeros 6 (toString (m % 1000000))

/-- Models the f-string `f"{sec_per_chunk:.6f}"` (line 149): the decimal
rendering of `round6 q` with exactly six fractional digits. -/
def fmt6 (q : ℚ) : String :=
  fmt6Int (round (q * 1000000))

/-- The argv built for ffmpeg (lines 141-153 of the source), verbatim. -/
def ffmpeg_cmd (input : String) (segTime : String) (outputTemplate : String) :
    List String :=
  ["ffmpeg", "-hide_banner", "-y", "-i", input, "-map", "0", "-c", "copy",
   "-f", "segment", "-segment_time", segTime, "-reset_timestamps", "1",
   "-avoid_negative_ts", "make_zero", outputTemplate]

/-- The output pattern of lines 133-139: `str(out_dir / f"{base}_part%0{digits}d.mp4")`,
with `out_dir` defaulting to the parent of the input file. -/
def output_template (file_path : PyPath) (num_chunks : Int) (out_dir : Option String) :
    String :=
  (out_dir.getD file_path.dir) ++ "/" ++
    (file_path.stem ++ "_part%0" ++ toString (namingDigits num_chunks.toNat) ++ "d.mp4")

/-- Environment of one `split_video_stream_copy` run. -/
structure SplitEnv where
  fileExists : Bool
  probe : ProbeEnv
  ffmpegOnPath : Bool
  ffmpegExit : Int
deriving DecidableEq

/-- Everything a run makes observable: the Python-level outcome, the effect
trace, the ffmpeg argv when a child was spawned, and the final status line
printed at lines 166/168 (the informational prints of lines 155-160 carry no
specified content and are not modelled). -/
structure RunOut where
  result : SplitResult
  events : List Event
  ffmpegArgv : Option (List String)
  finalPrint : Option String
deriving DecidableEq

/-- Models `split_video_stream_copy` (lines 123-168), in source order:
chunk-count guard, existence guard, probe, planning (`sec_per_chunk`,
`digits`, template), `mkdir -p` of the output directory, one blocking ffmpeg
child, and a final status print chosen by the child exit code. The function
body ends without a return statement, so the Python return value is `None`
whatever the exit code was. -/
def split_video_stream_copy (env : SplitEnv) (file_path : PyPath)
    (num_chunks : Int) (out_dir : Option String) : RunOut :=
  if num_chunks ≤ 0 then
    { result := SplitResult.raised
        (PyExc.valueError "Number of chunks must be greater than zero."),
      events := [], ffmpegArgv := none, finalPrint := none }
  else if !env.fileExists then
    { result := SplitResult.raised
        (PyExc.fileNotFoundError ("Input file not found: " ++ file_path.str)),
      events := [], ffmpegArgv := none, finalPrint := none }
  else
    match ffprobe_duration env.probe file_path.str with
    | Except.error e =>
        { result := SplitResult.raised e,
          events := ffprobe_events env.probe file_path.str,
          ffmpegArgv := none, finalPrint := none }
    | Except.ok duration =>
        let sec_per_chunk : ℚ := duration / (num_chunks : ℚ)
        let od := out_dir.getD file_path.dir
        let cmd := ffmpeg_cmd file_path.str (fmt6 sec_per_chunk)
          (output_template file_path num_chunks out_dir)
        if !env.ffmpegOnPath then
          { result := SplitResult.raised (PyExc.fileNotFoundError "ffmpeg"),
            events := ffprobe_events env.probe file_path.str ++ [Event.mkdirAll od],
            ffmpegArgv := none, finalPrint := none }
        else
          { result := SplitResult.returnedNone,
            events := ffprobe_events env.probe file_path.str ++
              [Event.mkdirAll od, Event.spawn cmd, Event.waitChild],
            ffmpegArgv := some cmd,
            finalPrint := some (if env.ffmpegExit = 0
              then "✅ Done! Files saved in: " ++ od
              else "❌ FFmpeg encountered an error.") }

/-! ### General lemmas about the embedded definitions -/

/-- Evaluation of `pyFloat` through a parsed literal. -/
theorem pyFloat_of_lit {s : String} {f : FloatLit} (h : pyFloatLit s = some f) :
    pyFloat s = some f.val := by
  simp [pyFloat, h]

/-- The probe succeeds and returns exactly the parsed value when the engine
resolves, exits zero, and its stripped stdout parses. -/
theorem ffprobe_duration_ok {env : ProbeEnv} (path : String) {v : ℚ}
    (h1 : env.onPath = true) (h2 : env.exitCode = 0)
    (h3 : pyFloat (String.mk (pyStrip env.stdout.data)) = some v) :
    ffprobe_duration env path = Except.ok v := by
  simp [ffprobe_duration, h1, h2, h3]

/-- Width 2 for counts from 1 to 99. -/
theorem namingDigits_eq_two {n : ℕ} (h1 : 1 ≤ n) (h2 : n ≤ 99) :
    namingDigits n = 2 := by
  have hc : Nat.clog 10 (n + 1) ≤ 2 :=
    (Nat.le_pow_iff_clog_le (by norm_num)).mp (by omega)
  unfold namingDigits
  exact Nat.max_eq_left hc

/-- Width 3 for counts from 100 to 999. -/
theorem namingDigits_eq_three {n : ℕ} (h1 : 100 ≤ n) (h2 : n ≤ 999) :
    namingDigits n = 3 := by
  have hle : Nat.clog 10 (n + 1) ≤ 3 :=
    (Nat.le_pow_iff_clog_le (by norm_num)).mp (by omega)
  have hlt : 2 < Nat.clog 10 (n + 1) :=
    (Nat.pow_lt_iff_lt_clog (by norm_num)).mp (by omega)
  have : Nat.clog 10 (n + 1) = 3 := by omega
  unfold namingDigits
  rw [this]
  rfl

/-- The rendered segment time differs from the exact one by at most half a
millionth. -/
theorem abs_round6_sub (q : ℚ) : |round6 q - q| ≤ 1 / 2000000 := by
  have h := abs_sub_round (q * 1000000)
  unfold round6
  have heq : (round (q * 1000000) : ℚ) / 1000000 - q =
      ((round (q * 1000000) : ℚ) - q * 1000000) / 1000000 := by ring
  rw [heq, abs_div]
  rw [abs_of_pos (by norm_num : (0:ℚ) < 1000000)]
  rw [abs_sub_comm] at h
  calc |(round (q * 1000000) : ℚ) - q * 1000000| / 1000000
      ≤ (1 / 2) / 1000000 := by
        exact div_le_div_of_nonneg_right h (by norm_num) |>.trans_eq rfl
    _ = 1 / 2000000 := by norm_num

/-- A successful run reduces to a fully determined record: probe events, one
mkdir, one ffmpeg child with the planned argv, a blocking wait, a status
print chosen by the exit code, and a plain `None` return. -/
theorem split_run_ok {env : SplitEnv} {p : PyPath} {n : Int} {od : Option String} {d : ℚ}
    (hn : 0 < n) (hfe : env.fileExists = true) (hmp : env.ffmpegOnPath = true)
    (hpr : ffprobe_duration env.probe p.str = Except.ok d) :
    split_video_stream_copy env p n od =
      { result := SplitResult.returnedNone,
        events := ffprobe_events env.probe p.str ++
          [Event.mkdirAll (od.getD p.dir),
           Event.spawn (ffmpeg_cmd p.str (fmt6 (d / (n : ℚ))) (output_template p n od)),
           Event.waitChild],
        ffmpegArgv := some (ffmpeg_cmd p.str (fmt6 (d / (n : ℚ))) (output_template p n od)),
        finalPrint := some (if env.ffmpegExit = 0
          then "✅ Done! Files saved in: " ++ (od.getD p.dir)
          else "❌ FFmpeg encountered an error.") } := by
  simp only [split_video_stream_copy, hpr, hfe, hmp, Bool.not_true, if_neg (not_le.mpr hn)]
  simp

/-- A failing probe propagates its exception: no mkdir, no ffmpeg child. -/
theorem split_probe_error {env : SplitEnv} {p : PyPath} {n : Int} {od : Option String}
    {e : PyExc} (hn : 0 < n) (hfe : env.fileExists = true)
    (hpr : ffprobe_duration env.probe p.str = Except.error e) :
    split_video_stream_copy env p n od =
      { result := SplitResult.raised e,
        events := ffprobe_events env.probe p.str,
        ffmpegArgv := none, finalPrint := none } := by
  simp only [split_video_stream_copy, hpr, hfe, Bool.not_true, if_neg (not_le.mpr hn)]
  simp

/-- Probe stdout "100.0" yields the duration 100. -/
theorem probe_ok_100 (path : String) :
    ffprobe_duration ⟨true, 0, "100.0"⟩ path = Except.ok 100 := by
  have hs : String.mk (pyStrip ("100.0" : String).data) = "100.0" := by decide
  have hl : pyFloatLit "100.0" = some ⟨false, 1000, 1, false, 0⟩ := by decide
  refine ffprobe_duration_ok path rfl rfl ?_
  rw [hs, pyFloat_of_lit hl]
  norm_num [FloatLit.val]

/-- Probe stdout "1" yields the duration 1. -/
theorem probe_ok_1 (path : String) :
    ffprobe_duration ⟨true, 0, "1"⟩ path = Except.ok 1 := by
  have hs : String.mk (pyStrip ("1" : String).data) = "1" := by decide
  have hl : pyFloatLit "1" = some ⟨false, 1, 0, false, 0⟩ := by decide
  refine ffprobe_duration_ok path rfl rfl ?_
  rw [hs, pyFloat_of_lit hl]
  norm_num [FloatLit.val]

/-- The rendering of 100/4 = 25 seconds per chunk. -/
theorem fmt6_25 : fmt6 ((100 : ℚ) / 4) = "25.000000" := by
  have h : round ((100 : ℚ) / 4 * 1000000) = 25000000 := by rw [round_eq]; norm_num
  rw [fmt6, h]; decide

/-- The rendering of 1/3 seconds per chunk: six digits, rounded. -/
theorem fmt6_third : fmt6 ((1 : ℚ) / 3) = "0.333333" := by
  have h : round ((1 : ℚ) / 3 * 1000000) = 333333 := by rw [round_eq]; norm_num
  rw [fmt6, h]; decide

/-! ### Claims -/

/-- C3: for every positive chunk count n, the zero-pad width equals
max(2, ⌈log10(n+1)⌉): it is 2 for n in [1, 99], 3 for n in [100, 999], and
never less than 2. -/
theorem C3_namingDigits_formula (n : ℕ) (h : 1 ≤ n) :
    namingDigits n = max 2 (Nat.clog 10 (n + 1)) ∧
    (n ≤ 99 → namingDigits n = 2) ∧
    (100 ≤ n → n ≤ 999 → namingDigits n = 3) ∧
    2 ≤ namingDigits n := by
  refine ⟨rfl, fun h2 => namingDigits_eq_two h h2,
    fun h2 h3 => namingDigits_eq_three h2 h3, ?_⟩
  show 2 ≤ max 2 (Nat.clog 10 (n + 1))
  exact le_max_left _ _

/-- Witness for C3 at n = 120: width 3. -/
theorem C3_witness : 1 ≤ 120 ∧ namingDigits 120 = 3 :=
  ⟨by norm_num,
    (C3_namingDigits_formula 120 (by norm_num)).2.2.1 (by norm_num) (by norm_num)⟩

/-- C6: a non-positive chunk count raises the `ValueError` of line 126 before
anything else happens: the trace is empty (no probe, no child process, no
mkdir) and no ffmpeg argv is ever built. -/
theorem C6_invalid_chunk_count (env : SplitEnv) (p : PyPath) (n : Int)
    (od : Option String) (h : n ≤ 0) :
    split_video_stream_copy env p n od =
      { result := SplitResult.raised
          (PyExc.valueError "Number of chunks must be greater than zero."),
        events := [], ffmpegArgv := none, finalPrint := none } := by
  simp [split_video_stream_copy, if_pos h]

/-- Witness for C6 at chunk count 0. -/
theorem C6_witness :
    (0 : Int) ≤ 0 ∧
    (split_video_stream_copy ⟨true, ⟨true, 0, "100.0"⟩, true, 0⟩
      ⟨"d", "v", ".mp4"⟩ 0 none).events = [] :=
  ⟨le_refl 0, by
    rw [C6_invalid_chunk_count ⟨true, ⟨true, 0, "100.0"⟩, true, 0⟩
      ⟨"d", "v", ".mp4"⟩ 0 none (le_refl 0)]⟩

/-- C7: when the input file does not exist and the chunk count is positive,
the run raises the `FileNotFoundError` of line 128 with an empty trace: the
probe is never called and no child process is spawned. -/
theorem C7_input_not_found (env : SplitEnv) (p : PyPath) (n : Int)
    (od : Option String) (hn : 0 < n) (hfe : env.fileExists = false) :
    split_video_stream_copy env p n od =
      { result := SplitResult.raised
          (PyExc.fileNotFoundError ("Input file not found: " ++ p.str)),
        events := [], ffmpegArgv := none, finalPrint := none } := by
  simp [split_video_stream_copy, if_neg (not_le.mpr hn), hfe]

/-- Witness for C7: missing file, chunk count 4. -/
theorem C7_witness :
    (0 : Int) < 4 ∧
    (split_video_stream_copy ⟨false, ⟨true, 0, "100.0"⟩, true, 0⟩
      ⟨"d", "v", ".mp4"⟩ 4 none).events = [] :=
  ⟨by norm_num, by
    rw [C7_input_not_found ⟨false, ⟨true, 0, "100.0"⟩, true, 0⟩
      ⟨"d", "v", ".mp4"⟩ 4 none (by norm_num) rfl]⟩

/-- C8: the probe fails exactly when the engine is not on the execution path,
exits non-zero, or emits stdout that does not parse as a float; one child at
most is ever spawned (no retry), and a failing probe inside a split run means
no ffmpeg argv is built and the trace stops at the probe. -/
theorem C8_probe_failure_iff (env : ProbeEnv) (p : PyPath) :
    ((∃ e, ffprobe_duration env p.str = Except.error e) ↔
      env.onPath = false ∨ env.exitCode ≠ 0 ∨
        pyFloat (String.mk (pyStrip env.stdout.data)) = none) ∧
    (ffprobe_events env p.str).countP Event.isSpawn ≤ 1 ∧
    (∀ (mp : Bool) (fx n : Int) (od : Option String) (e : PyExc), 0 < n →
      ffprobe_duration env p.str = Except.error e →
      (split_video_stream_copy ⟨true, env, mp, fx⟩ p n od).ffmpegArgv = none ∧
      (split_video_stream_copy ⟨true, env, mp, fx⟩ p n od).events =
        ffprobe_events env p.str) := by
  refine ⟨?_, ?_, ?_⟩
  · cases h1 : env.onPath with
    | false => simp [ffprobe_duration, h1]
    | true =>
      by_cases h2 : env.exitCode = 0
      · cases h3 : pyFloat (String.mk (pyStrip env.stdout.data)) with
        | none => simp [ffprobe_duration, h1, h2, h3]
        | some v => simp [ffprobe_duration, h1, h2, h3]
      · simp [ffprobe_duration, h1, h2]
  · cases h1 : env.onPath <;>
      simp [ffprobe_events, h1, List.countP, List.countP.go, Event.isSpawn]
  · intro mp fx n od e hn hpr
    rw [split_probe_error hn rfl hpr]
    exact ⟨rfl, rfl⟩

/-- Witness for C8: stdout "N/A" does not parse, the probe errors, and the
split run spawns no segment engine. -/
theorem C8_witness :
    (∃ e, ffprobe_duration ⟨true, 0, "N/A"⟩ (PyPath.str ⟨"d", "f", ".mp4"⟩) =
      Except.error e) ∧
    (split_video_stream_copy ⟨true, ⟨true, 0, "N/A"⟩, true, 0⟩
      ⟨"d", "f", ".mp4"⟩ 2 none).ffmpegArgv = none := by
  have h := C8_probe_failure_iff ⟨true, 0, "N/A"⟩ ⟨"d", "f", ".mp4"⟩
  have hfail := h.1.mpr (Or.inr (Or.inr (by decide)))
  obtain ⟨e, he⟩ := hfail
  exact ⟨⟨e, he⟩, (h.2.2 true 0 2 none e (by norm_num) he).1⟩

/-- C9 counterexample: a probe run whose stdout parses as the float -1.5
makes `ffprobe_duration` return -1.5, a negative duration — the code applies
no non-negativity check to the parsed value. -/
theorem C9_counterexample :
    ffprobe_duration ⟨true, 0, "-1.5"⟩ "in.mp4" = Except.ok (-(3 / 2) : ℚ) ∧
    (-(3 / 2) : ℚ) < 0 := by
  have hs : String.mk (pyStrip ("-1.5" : String).data) = "-1.5" := by decide
  have hl : pyFloatLit "-1.5" = some ⟨true, 15, 1, false, 0⟩ := by decide
  refine ⟨ffprobe_duration_ok "in.mp4" rfl rfl ?_, by norm_num⟩
  rw [hs, pyFloat_of_lit hl]
  norm_num [FloatLit.val]

/-- C9 amended: `ffprobe_duration` returns exactly the value the stripped
stdout parses to, unchanged — non-negative precisely when the probe engine
printed a non-negative number. -/
theorem C9_amended (env : ProbeEnv) (path : String) (v : ℚ)
    (h1 : env.onPath = true) (h2 : env.exitCode = 0)
    (h3 : pyFloat (String.mk (pyStrip env.stdout.data)) = some v) :
    ffprobe_duration env path = Except.ok v :=
  ffprobe_duration_ok path h1 h2 h3

/-- Witness for C9 amended: stdout "12.5" yields exactly 12.5. -/
theorem C9_witness :
    ffprobe_duration ⟨true, 0, "12.5"⟩ "in.mp4" = Except.ok ((25 : ℚ) / 2) := by
  have hs : String.mk (pyStrip ("12.5" : String).data) = "12.5" := by decide
  have hl : pyFloatLit "12.5" = some ⟨false, 125, 1, false, 0⟩ := by decide
  refine C9_amended ⟨true, 0, "12.5"⟩ "in.mp4" ((25 : ℚ) / 2) rfl rfl ?_
  rw [hs, pyFloat_of_lit hl]
  norm_num [FloatLit.val]

/-- C10: an input whose suffix lowercases to ".mp4" passes the validator even
when its case differs, while every output name the planner produces ends in
the literal lowercase ".mp4" — so for such inputs the output extension
differs from the input's. -/
theorem C10_case_variant_lowercase_output (p : PyPath)
    (hlow : pyLower p.suffix = ".mp4") :
    ensure_video_path false (Except.ok p) true p = Except.ok p ∧
    (∀ (n : Int) (od : Option String),
      output_template p n od = (od.getD p.dir) ++ "/" ++
        (p.stem ++ "_part%0" ++ toString (namingDigits n.toNat) ++ "d.mp4")) ∧
    (∀ (w i : ℕ), chunkName p.stem w i =
      p.stem ++ "_part" ++ padLeftZeros w (toString i) ++ ".mp4") ∧
    (p.suffix ≠ ".mp4" → ".mp4" ≠ p.suffix) := by
  refine ⟨?_, fun n od => rfl, fun w i => rfl, fun h => Ne.symm h⟩
  simp [ensure_video_path, hlow]

/-- Witness for C10 at the input "VIDEO.MP4": accepted, and the suffix used
for outputs differs from the input's. -/
theorem C10_witness :
    ensure_video_path false (Except.ok ⟨"d", "VIDEO", ".MP4"⟩) true
      ⟨"d", "VIDEO", ".MP4"⟩ = Except.ok ⟨"d", "VIDEO", ".MP4"⟩ ∧
    (".mp4" : String) ≠ PyPath.suffix ⟨"d", "VIDEO", ".MP4"⟩ := by
  have h := C10_case_variant_lowercase_output ⟨"d", "VIDEO", ".MP4"⟩ (by decide)
  exact ⟨h.1, h.2.2.2 (by decide)⟩

/-- C1 counterexample: with the segment engine launched and exiting 1, the
run's Python-level result is the same plain `None` return as in the exit-0
run — the non-zero exit code is not surfaced to the caller as a failure
result, refuting the claimed exit-code propagation. -/
theorem C1_counterexample :
    (split_video_stream_copy ⟨true, ⟨true, 0, "100.0"⟩, true, 1⟩
      ⟨"d", "video", ".mp4"⟩ 4 none).result = SplitResult.returnedNone ∧
    (split_video_stream_copy ⟨true, ⟨true, 0, "100.0"⟩, true, 1⟩
      ⟨"d", "video", ".mp4"⟩ 4 none).result =
    (split_video_stream_copy ⟨true, ⟨true, 0, "100.0"⟩, true, 0⟩
      ⟨"d", "video", ".mp4"⟩ 4 none).result := by
  rw [split_run_ok (by norm_num) rfl rfl (probe_ok_100 _),
    split_run_ok (by norm_num) rfl rfl (probe_ok_100 _)]
  exact ⟨rfl, rfl⟩

/-- C1 amended: the operation launches the engine, blocks until it exits, and
inspects the exit code only to choose the final console message (the success
line for zero, the error line otherwise); the function returns `None` to its
caller in both cases, so no exit status is propagated as a result value. -/
theorem C1_amended (env : SplitEnv) (p : PyPath) (n : Int) (od : Option String) (d : ℚ)
    (hn : 0 < n) (hfe : env.fileExists = true) (hmp : env.ffmpegOnPath = true)
    (hpr : ffprobe_duration env.probe p.str = Except.ok d) :
    (split_video_stream_copy env p n od).result = SplitResult.returnedNone ∧
    (split_video_stream_copy env p n od).finalPrint =
      some (if env.ffmpegExit = 0
        then "✅ Done! Files saved in: " ++ (od.getD p.dir)
        else "❌ FFmpeg encountered an error.") ∧
    (∃ pre, (split_video_stream_copy env p n od).events =
      pre ++ [Event.spawn (ffmpeg_cmd p.str (fmt6 (d / (n : ℚ))) (output_template p n od)),
        Event.waitChild]) := by
  rw [split_run_ok hn hfe hmp hpr]
  refine ⟨rfl, rfl,
    ⟨ffprobe_events env.probe p.str ++ [Event.mkdirAll (od.getD p.dir)], ?_⟩⟩
  simp

/-- Witness for C1 amended: engine exit 1 yields the error status line. -/
theorem C1_witness :
    (0 : Int) < 4 ∧
    (split_video_stream_copy ⟨true, ⟨true, 0, "100.0"⟩, true, 1⟩
      ⟨"d", "video", ".mp4"⟩ 4 none).finalPrint =
      some "❌ FFmpeg encountered an error." := by
  have h := C1_amended ⟨true, ⟨true, 0, "100.0"⟩, true, 1⟩ ⟨"d", "video", ".mp4"⟩ 4 none
    100 (by norm_num) rfl rfl (probe_ok_100 _)
  refine ⟨by norm_num, ?_⟩
  rw [h.2.1]
  norm_num

/-- C2 amended: `sec_per_chunk` is exactly D/n and n·(D/n) = D, but the value
handed to the engine is the six-fractional-digit rounding of D/n (line 149),
whose per-chunk error is at most half a millionth of a second, so the
cumulative error over n ≤ 999 chunks stays under one millisecond. -/
theorem C2_amended (D : ℚ) (n : Int) (hD : 0 < D) (h1 : 1 ≤ n) (h2 : n ≤ 999) :
    (n : ℚ) * (D / (n : ℚ)) = D ∧
    |round6 (D / (n : ℚ)) - D / (n : ℚ)| ≤ 1 / 2000000 ∧
    (n : ℚ) * |round6 (D / (n : ℚ)) - D / (n : ℚ)| < 1 / 1000 ∧
    (∀ (env : SplitEnv) (p : PyPath) (od : Option String),
      env.fileExists = true → env.ffmpegOnPath = true →
      ffprobe_duration env.probe p.str = Except.ok D →
      (split_video_stream_copy env p n od).ffmpegArgv =
        some (ffmpeg_cmd p.str (fmt6 (D / (n : ℚ))) (output_template p n od))) := by
  have hne : (n : ℚ) ≠ 0 := Int.cast_ne_zero.mpr (by omega)
  have h999 : (n : ℚ) ≤ 999 := by exact_mod_cast h2
  refine ⟨?_, abs_round6_sub _, ?_, ?_⟩
  · rw [mul_comm]
    exact div_mul_cancel₀ D hne
  · calc (n : ℚ) * |round6 (D / (n : ℚ)) - D / (n : ℚ)|
        ≤ 999 * (1 / 2000000) :=
          mul_le_mul h999 (abs_round6_sub _) (abs_nonneg _) (by norm_num)
      _ < 1 / 1000 := by norm_num
  · intro env p od hfe hmp hpr
    rw [split_run_ok (by omega) hfe hmp hpr]

/-- Witness for C2 amended at D = 100, n = 4. -/
theorem C2_witness :
    ((4 : Int) : ℚ) * ((100 : ℚ) / ((4 : Int) : ℚ)) = 100 ∧
    ((4 : Int) : ℚ) *
      |round6 ((100 : ℚ) / ((4 : Int) : ℚ)) - (100 : ℚ) / ((4 : Int) : ℚ)| < 1 / 1000 := by
  have h := C2_amended 100 4 (by norm_num) (by norm_num) (by norm_num)
  exact ⟨h.1, h.2.2.1⟩

/-- C2 counterexample: with D = 1 and n = 3 the engine is handed the string
"0.333333", which denotes 333333/1000000 and not D/n = 1/3 — rounding is
applied to the value passed onward. -/
theorem C2_counterexample :
    (split_video_stream_copy ⟨true, ⟨true, 0, "1"⟩, true, 0⟩
      ⟨"d", "video", ".mp4"⟩ 3 none).ffmpegArgv =
      some (ffmpeg_cmd "d/video.mp4" "0.333333" "d/video_part%02d.mp4") ∧
    pyFloat "0.333333" = some ((333333 : ℚ) / 1000000) ∧
    ((333333 : ℚ) / 1000000) ≠ (1 : ℚ) / 3 := by
  refine ⟨?_, ?_, by norm_num⟩
  · rw [split_run_ok (by norm_num) rfl rfl (probe_ok_1 _)]
    have hc : ((1 : ℚ) / ((3 : Int) : ℚ)) = (1 : ℚ) / 3 := by norm_num
    have hd2 : namingDigits (Int.toNat 3) = 2 :=
      namingDigits_eq_two (by norm_num) (by norm_num)
    simp only [hc, fmt6_third, output_template, hd2]
    decide
  · have hl : pyFloatLit "0.333333" = some ⟨false, 333333, 6, false, 0⟩ := by decide
    rw [pyFloat_of_lit hl]
    norm_num [FloatLit.val]

/-- C4 counterexample: the input "VIDEO.MP4" is a valid input (the validator
accepts any case variant), yet the output template ends in the literal
lowercase ".mp4" and not in the input's original extension ".MP4". -/
theorem C4_counterexample :
    ensure_video_path false (Except.ok ⟨"d", "VIDEO", ".MP4"⟩) true
      ⟨"d", "VIDEO", ".MP4"⟩ = Except.ok ⟨"d", "VIDEO", ".MP4"⟩ ∧
    (split_video_stream_copy ⟨true, ⟨true, 0, "100.0"⟩, true, 0⟩
      ⟨"d", "VIDEO", ".MP4"⟩ 4 none).ffmpegArgv =
      some (ffmpeg_cmd "d/VIDEO.MP4" "25.000000" "d/VIDEO_part%02d.mp4") ∧
    ("d/VIDEO_part%02d.mp4" : String) ≠ "d" ++ "/" ++ "VIDEO" ++ "_part%02d" ++ ".MP4" := by
  have hlow : pyLower (PyPath.suffix ⟨"d", "VIDEO", ".MP4"⟩) = ".mp4" := by decide
  refine ⟨by simp [ensure_video_path, hlow], ?_, by decide⟩
  rw [split_run_ok (by norm_num) rfl rfl (probe_ok_100 _)]
  have hc : ((100 : ℚ) / ((4 : Int) : ℚ)) = (100 : ℚ) / 4 := by norm_num
  have hd2 : namingDigits (Int.toNat 4) = 2 :=
    namingDigits_eq_two (by norm_num) (by norm_num)
  simp only [hc, fmt6_25, output_template, hd2]
  decide

/-- C4 amended: the template is `{base}_part%0{digits}d.mp4`, joined with the
output directory — the extension is the literal lowercase ".mp4" (equal to
the original extension exactly when that is ".mp4"); splitting video.mp4 into
four chunks names the outputs video_part01.mp4 through video_part04.mp4. -/
theorem C4_amended (env : SplitEnv) (p : PyPath) (n : Int) (od : Option String) (d : ℚ)
    (hn : 0 < n) (hfe : env.fileExists = true) (hmp : env.ffmpegOnPath = true)
    (hpr : ffprobe_duration env.probe p.str = Except.ok d) :
    (split_video_stream_copy env p n od).ffmpegArgv =
      some (ffmpeg_cmd p.str (fmt6 (d / (n : ℚ))) (output_template p n od)) ∧
    output_template p n od = (od.getD p.dir) ++ "/" ++
      (p.stem ++ "_part%0" ++ toString (namingDigits n.toNat) ++ "d.mp4") ∧
    chunkName "video" (namingDigits 4) 1 = "video_part01.mp4" ∧
    chunkName "video" (namingDigits 4) 4 = "video_part04.mp4" := by
  have hd2 : namingDigits 4 = 2 := namingDigits_eq_two (by norm_num) (by norm_num)
  refine ⟨?_, rfl, ?_, ?_⟩
  · rw [split_run_ok hn hfe hmp hpr]
  · rw [hd2]; decide
  · rw [hd2]; decide

/-- Witness for C4 amended at video.mp4 split into four chunks. -/
theorem C4_witness :
    (split_video_stream_copy ⟨true, ⟨true, 0, "100.0"⟩, true, 0⟩
      ⟨"d", "video", ".mp4"⟩ 4 none).ffmpegArgv =
      some (ffmpeg_cmd (PyPath.str ⟨"d", "video", ".mp4"⟩)
        (fmt6 (100 / ((4 : Int) : ℚ))) (output_template ⟨"d", "video", ".mp4"⟩ 4 none)) ∧
    chunkName "video" (namingDigits 4) 1 = "video_part01.mp4" := by
  have h := C4_amended ⟨true, ⟨true, 0, "100.0"⟩, true, 0⟩ ⟨"d", "video", ".mp4"⟩ 4 none
    100 (by norm_num) rfl rfl (probe_ok_100 _)
  exact ⟨h.1, h.2.2.1⟩

/-- C5: the constructed argv simultaneously requests segment mode with the
planned template as output, mapping of all streams, verbatim stream copy, the
rendered per-chunk duration as segment time (within half a millionth of the
exact value), timestamp reset, negative-timestamp normalization, and
no-prompt overwriting. -/
theorem C5_invocation_flags (env : SplitEnv) (p : PyPath) (n : Int)
    (od : Option String) (d : ℚ) (hn : 0 < n) (hfe : env.fileExists = true)
    (hmp : env.ffmpegOnPath = true)
    (hpr : ffprobe_duration env.probe p.str = Except.ok d) :
    ∃ cmd, (split_video_stream_copy env p n od).ffmpegArgv = some cmd ∧
      ["-f", "segment"] <:+: cmd ∧
      cmd.getLast? = some (output_template p n od) ∧
      ["-map", "0"] <:+: cmd ∧
      ["-c", "copy"] <:+: cmd ∧
      ["-segment_time", fmt6 (d / (n : ℚ))] <:+: cmd ∧
      |round6 (d / (n : ℚ)) - d / (n : ℚ)| ≤ 1 / 2000000 ∧
      ["-reset_timestamps", "1"] <:+: cmd ∧
      ["-avoid_negative_ts", "make_zero"] <:+: cmd ∧
      "-y" ∈ cmd := by
  refine ⟨ffmpeg_cmd p.str (fmt6 (d / (n : ℚ))) (output_template p n od), ?_,
    ⟨["ffmpeg", "-hide_banner", "-y", "-i", p.str, "-map", "0", "-c", "copy"],
     ["-segment_time", fmt6 (d / (n : ℚ)), "-reset_timestamps", "1",
      "-avoid_negative_ts", "make_zero", output_template p n od], rfl⟩,
    rfl,
    ⟨["ffmpeg", "-hide_banner", "-y", "-i", p.str],
     ["-c", "copy", "-f", "segment", "-segment_time", fmt6 (d / (n : ℚ)),
      "-reset_timestamps", "1", "-avoid_negative_ts", "make_zero",
      output_template p n od], rfl⟩,
    ⟨["ffmpeg", "-hide_banner", "-y", "-i", p.str, "-map", "0"],
     ["-f", "segment", "-segment_time", fmt6 (d / (n : ℚ)), "-reset_timestamps", "1",
      "-avoid_negative_ts", "make_zero", output_template p n od], rfl⟩,
    ⟨["ffmpeg", "-hide_banner", "-y", "-i", p.str, "-map", "0", "-c", "copy",
      "-f", "segment"],
     ["-reset_timestamps", "1", "-avoid_negative_ts", "make_zero",
      output_template p n od], rfl⟩,
    abs_round6_sub _,
    ⟨["ffmpeg", "-hide_banner", "-y", "-i", p.str, "-map", "0", "-c", "copy",
      "-f", "segment", "-segment_time", fmt6 (d / (n : ℚ))],
     ["-avoid_negative_ts", "make_zero", output_template p n od], rfl⟩,
    ⟨["ffmpeg", "-hide_banner", "-y", "-i", p.str, "-map", "0", "-c", "copy",
      "-f", "segment", "-segment_time", fmt6 (d / (n : ℚ)), "-reset_timestamps", "1"],
     [output_template p n od], rfl⟩,
    by simp [ffmpeg_cmd]⟩
  rw [split_run_ok hn hfe hmp hpr]

/-- Witness for C5 on a concrete successful run. -/
theorem C5_witness :
    ∃ cmd, (split_video_stream_copy ⟨true, ⟨true, 0, "100.0"⟩, true, 0⟩
      ⟨"d", "video", ".mp4"⟩ 4 none).ffmpegArgv = some cmd ∧
      ["-c", "copy"] <:+: cmd ∧ ["-f", "segment"] <:+: cmd := by
  obtain ⟨cmd, h1, h2, h3, h4, h5, h6, h7, h8, h9, h10⟩ :=
    C5_invocation_flags ⟨true, ⟨true, 0, "100.0"⟩, true, 0⟩ ⟨"d", "video", ".mp4"⟩ 4 none
      100 (by norm_num) rfl rfl (probe_ok_100 _)
  exact ⟨cmd, h1, h5, h2⟩
